import Mathlib

/-!
Verification of the slurm-waiting-times pipeline: a shallow embedding of the
record parser (`sacct.py`), the classifier and filter pipeline
(`processing.py`), the runtime-constraint DSL (`cli.py`), and the histogram
statistics (`time_utils.py`, `histogram.py`), together with theorems settling
the specification claims.

Python floats are modelled as exact rationals; `datetime` values as calendar
components with a fixed UTC-offset timezone; fallible code returns `Except`.
-/

namespace SlurmWait

/-! ## Python string primitives -/

/-- Python whitespace characters removed by `str.strip()` (ASCII subset). -/
def isPyWhitespace (c : Char) : Bool :=
  c = ' ' || c = '\t' || c = '\n' || c = '\x0d' || c = '\x0b' || c = '\x0c'

/-- Python `str.strip()` on a character list. -/
def stripChars (s : List Char) : List Char :=
  (s.dropWhile isPyWhitespace).reverse.dropWhile isPyWhitespace |>.reverse

/-- Python `str.strip()`. -/
def pyStrip (s : String) : String :=
  String.mk (stripChars s.data)

/-- Python `str.lower()` (ASCII case folding, matching the identifiers used here). -/
def pyLower (s : String) : String :=
  String.mk (s.data.map Char.toLower)

/-- Python `str.startswith(prefix)`. -/
def pyStartswith (s pre : String) : Bool :=
  s.data.take pre.data.length == pre.data

/-- Python `str.split(sep)` with a single-character separator and a maximum number of
splits (`maxsplit`; `none` means unlimited), as in Python `str.split`.  The
`fuel` argument only bounds the recursion depth so the definition is
structurally recursive (and hence kernel-reducible): every recursive call
strictly shortens the list, so `s.length + 1` fuel never runs out. -/
def splitCharsMaxAux (sep : Char) : Nat → List Char → Option Nat → List (List Char)
  | _, s, some 0 => [s]
  | 0, s, _ => [s]
  | fuel + 1, s, maxsplit =>
    match s.span (fun c => !(c = sep)) with
    | (pre, []) => [pre]
    | (pre, _ :: rest) =>
      pre :: splitCharsMaxAux sep fuel rest (maxsplit.map (fun m => m - 1))

def splitCharsMax (sep : Char) (s : List Char) (maxsplit : Option Nat) :
    List (List Char) :=
  splitCharsMaxAux sep (s.length + 1) s maxsplit

/-- Python `str.split(sep, maxsplit)` for a one-character separator. -/
def pySplit (s : String) (sep : Char) (maxsplit : Option Nat) : List String :=
  (splitCharsMax sep s.data maxsplit).map String.mk

/-- Python `str.partition(sep)` for a one-character separator: the part before the
first occurrence, the separator (empty if absent), and the rest. -/
def pyPartition (s : String) (sep : Char) : String × String × String :=
  match s.data.span (fun c => !(c = sep)) with
  | (pre, []) => (String.mk pre, "", "")
  | (pre, _ :: rest) => (String.mk pre, String.mk [sep], String.mk rest)

/-- Python `str.splitlines()` over `\n`, `\r\n` and `\r` line endings. -/
def splitlinesChars : List Char → List Char → List (List Char)
  | acc, [] => if acc.isEmpty then [] else [acc.reverse]
  | acc, '\n' :: rest => acc.reverse :: splitlinesChars [] rest
  | acc, '\x0d' :: '\n' :: rest => acc.reverse :: splitlinesChars [] rest
  | acc, '\x0d' :: rest => acc.reverse :: splitlinesChars [] rest
  | acc, c :: rest => splitlinesChars (c :: acc) rest

/-- Python `str.splitlines()`. -/
def pySplitlines (s : String) : List String :=
  (splitlinesChars [] s.data).map String.mk

/-- Python `"x" in s` for a single character. -/
def pyContainsChar (s : String) (c : Char) : Bool :=
  s.data.contains c

/-- Python falsiness of a string (`not s`): true exactly for the empty
string (stated on the character list so it reduces on symbolic tails). -/
def pyFalsyStr (s : String) : Bool :=
  s.data.isEmpty

/-! ## Python integer parsing -/

def isAsciiDigit (c : Char) : Bool :=
  '0' ≤ c && c ≤ '9'

def digitVal (c : Char) : Nat :=
  c.toNat - '0'.toNat

def digitsToNat (ds : List Char) : Nat :=
  ds.foldl (fun acc c => acc * 10 + digitVal c) 0

/-- Python `int(s)` for an already-stripped string: optional sign followed by one or
more decimal digits (the digit-group-underscore extension is not used by this
code base's inputs). -/
def pyInt (s : String) : Except String Int :=
  let chars := s.data
  let (sign, digits) :=
    match chars with
    | '-' :: rest => ((-1 : Int), rest)
    | '+' :: rest => ((1 : Int), rest)
    | rest => ((1 : Int), rest)
  if digits.isEmpty || !(digits.all isAsciiDigit) then
    Except.error ("invalid literal for int() with base 10: '" ++ s ++ "'")
  else
    Except.ok (sign * (digitsToNat digits : Int))

/-! ## Datetimes (`time_utils.parse_datetime`)

Timezones are modelled as fixed UTC offsets in minutes (the claims never
exercise DST transitions).  An aware datetime is represented canonically by
its absolute instant (microseconds since the Unix epoch) plus the offset of
the timezone it is expressed in; `astimezone` preserves the instant. -/

structure PyDateTime where
  epochMicros : Int
  offsetMinutes : Int
  deriving DecidableEq

/-- Days in a month, accounting for leap years (as validated by
`datetime.datetime`). -/
def daysInMonth (year : Int) (month : Nat) : Nat :=
  if month = 2 then
    if year % 4 = 0 && (year % 100 ≠ 0 || year % 400 = 0) then 29 else 28
  else if month = 4 || month = 6 || month = 9 || month = 11 then 30
  else 31

/-- Days from the civil epoch 1970-01-01 (Hinnant's `days_from_civil`,
written for truncating integer division, which `Int.tdiv` provides). -/
def daysFromCivil (y : Int) (m d : Nat) : Int :=
  let y' : Int := if m ≤ 2 then y - 1 else y
  let era : Int := (if 0 ≤ y' then y' else y' - 399).tdiv 400
  let yoe : Int := y' - era * 400
  let mp : Int := if m > 2 then (m : Int) - 3 else (m : Int) + 9
  let doy : Int := (153 * mp + 2).tdiv 5 + (d : Int) - 1
  let doe : Int := yoe * 365 + yoe.tdiv 4 - yoe.tdiv 100 + doy
  era * 146097 + doe - 719468

/-- Parsed datetime components before timezone resolution. -/
structure DtComponents where
  year : Int
  month : Nat
  day : Nat
  hour : Nat
  minute : Nat
  second : Nat
  micro : Nat
  offsetMinutes : Option Int
  deriving DecidableEq

def componentsValid (c : DtComponents) : Bool :=
  1 ≤ c.month && c.month ≤ 12 && 1 ≤ c.day && c.day ≤ daysInMonth c.year c.month &&
    c.hour ≤ 23 && c.minute ≤ 59 && c.second ≤ 59

/-- Resolve components to an absolute instant: an explicit offset wins,
otherwise the caller-supplied timezone offset applies; either way the result
is expressed in the caller timezone (`replace`/`astimezone` in the source). -/
def resolveComponents (c : DtComponents) (tzOffsetMinutes : Int) : PyDateTime :=
  let usedOffset := c.offsetMinutes.getD tzOffsetMinutes
  let micros : Int :=
    ((daysFromCivil c.year c.month c.day * 86400 +
        (c.hour : Int) * 3600 + (c.minute : Int) * 60 + (c.second : Int)
        - usedOffset * 60) * 1000000) + (c.micro : Int)
  { epochMicros := micros, offsetMinutes := tzOffsetMinutes }

/-- Consume exactly `n` ASCII digits, returning their value. -/
def takeExactDigits (n : Nat) (s : List Char) : Option (Nat × List Char) :=
  let ds := s.take n
  if ds.length = n && ds.all isAsciiDigit then some (digitsToNat ds, s.drop n)
  else none

/-- Consume one or two digits (two preferred) whose value satisfies `valid`,
mirroring the backtracking of `strptime`'s field regexes. -/
def takeFlexDigits (valid : Nat → Bool) (s : List Char) : Option (Nat × List Char) :=
  match s with
  | c1 :: c2 :: rest =>
    if isAsciiDigit c1 && isAsciiDigit c2 && valid (digitVal c1 * 10 + digitVal c2) then
      some (digitVal c1 * 10 + digitVal c2, rest)
    else if isAsciiDigit c1 && valid (digitVal c1) then some (digitVal c1, c2 :: rest)
    else none
  | [c1] => if isAsciiDigit c1 && valid (digitVal c1) then some (digitVal c1, []) else none
  | [] => none

def expectChar (c : Char) (s : List Char) : Option (List Char) :=
  match s with
  | c' :: rest => if c' = c then some rest else none
  | [] => none

/-- The `±HH:MM` (or `Z`) timezone suffix accepted by `fromisoformat`. -/
def takeIsoOffset (s : List Char) : Option (Option Int × List Char) :=
  match s with
  | [] => some (none, [])
  | 'Z' :: rest => some (some 0, rest)
  | sign :: rest =>
    if sign = '+' || sign = '-' then
      match takeExactDigits 2 rest with
      | some (hh, rest1) =>
        match expectChar ':' rest1 with
        | some rest2 =>
          match takeExactDigits 2 rest2 with
          | some (mm, rest3) =>
            let total : Int := (hh : Int) * 60 + (mm : Int)
            some (some (if sign = '-' then -total else total), rest3)
          | none => none
        | none => none
      | none => none
    else none

/-- The subset of `datetime.fromisoformat` exercised by sacct timestamps:
`YYYY-MM-DD`, optionally a single separator character and
`HH:MM[:SS[.f{1..6}]]`, optionally `±HH:MM` or `Z`. -/
def parseIsoDatetime (s : List Char) : Option DtComponents :=
  match takeExactDigits 4 s with
  | none => none
  | some (year, s1) =>
    match expectChar '-' s1 with
    | none => none
    | some s2 =>
      match takeExactDigits 2 s2 with
      | none => none
      | some (month, s3) =>
        match expectChar '-' s3 with
        | none => none
        | some s4 =>
          match takeExactDigits 2 s4 with
          | none => none
          | some (day, s5) =>
            let base : DtComponents :=
              { year := year, month := month, day := day, hour := 0, minute := 0,
                second := 0, micro := 0, offsetMinutes := none }
            match s5 with
            | [] => if componentsValid base then some base else none
            | _sep :: s6 =>
              match takeExactDigits 2 s6 with
              | none => none
              | some (hour, s7) =>
                match expectChar ':' s7 with
                | none => none
                | some s8 =>
                  match takeExactDigits 2 s8 with
                  | none => none
                  | some (minute, s9) =>
                    let (second, s10) :=
                      match expectChar ':' s9 with
                      | some s9' =>
                        match takeExactDigits 2 s9' with
                        | some (sec, rest) => (some sec, rest)
                        | none => (none, s9)
                      | none => (none, s9)
                    match second with
                    | none =>
                      match takeIsoOffset s9 with
                      | some (off, []) =>
                        let c := { base with hour := hour, minute := minute,
                                             offsetMinutes := off }
                        if componentsValid c then some c else none
                      | _ => none
                    | some sec =>
                      let (micro, s11) :=
                        match expectChar '.' s10 with
                        | some s10' =>
                          let ds := s10'.takeWhile isAsciiDigit
                          if 1 ≤ ds.length && ds.length ≤ 6 then
                            (digitsToNat ds * 10 ^ (6 - ds.length), s10'.drop ds.length)
                          else (0, s10)
                        | none => (0, s10)
                      match takeIsoOffset s11 with
                      | some (off, []) =>
                        let c := { base with hour := hour, minute := minute,
                                             second := sec, micro := micro,
                                             offsetMinutes := off }
                        if componentsValid c then some c else none
                      | _ => none

/-- One `strptime` fallback pattern: `%Y<ds>%m<ds>%d`, optionally followed by
a space and `%H:%M[:%S]` when `withTime`/`withSeconds` says so. -/
def parseFallbackPattern (dateSep : Char) (withTime withSeconds : Bool)
    (s : List Char) : Option DtComponents :=
  match takeExactDigits 4 s with
  | none => none
  | some (year, s1) =>
    match expectChar dateSep s1 with
    | none => none
    | some s2 =>
      match takeFlexDigits (fun v => 1 ≤ v && v ≤ 12) s2 with
      | none => none
      | some (month, s3) =>
        match expectChar dateSep s3 with
        | none => none
        | some s4 =>
          match takeFlexDigits (fun v => 1 ≤ v && v ≤ 31) s4 with
          | none => none
          | some (day, s5) =>
            let finish (hour minute second : Nat) (rest : List Char) :
                Option DtComponents :=
              let c : DtComponents :=
                { year := year, month := month, day := day, hour := hour,
                  minute := minute, second := second, micro := 0,
                  offsetMinutes := none }
              if rest.isEmpty && componentsValid c then some c else none
            if withTime then
              match expectChar ' ' s5 with
              | none => none
              | some s6 =>
                match takeFlexDigits (fun v => v ≤ 23) s6 with
                | none => none
                | some (hour, s7) =>
                  match expectChar ':' s7 with
                  | none => none
                  | some s8 =>
                    match takeFlexDigits (fun v => v ≤ 59) s8 with
                    | none => none
                    | some (minute, s9) =>
                      if withSeconds then
                        match expectChar ':' s9 with
                        | none => none
                        | some s10 =>
                          match takeFlexDigits (fun v => v ≤ 59) s10 with
                          | none => none
                          | some (second, s11) => finish hour minute second s11
                      else finish hour minute 0 s9
            else finish 0 0 0 s5

/-- The source's `time_utils.parse_datetime`: strip, try ISO-8601, then the fallback
pattern list, attach/normalise to the caller timezone; `ValueError` on
failure. -/
def parse_datetime (value : String) (tzOffsetMinutes : Int) :
    Except String PyDateTime :=
  let v := stripChars value.data
  if v.isEmpty then Except.error ("empty datetime value")
  else
    match parseIsoDatetime v with
    | some c => Except.ok (resolveComponents c tzOffsetMinutes)
    | none =>
      let fallbacks :=
        [parseFallbackPattern '-' true true v,
         parseFallbackPattern '-' true false v,
         parseFallbackPattern '-' false false v,
         parseFallbackPattern '/' true true v,
         parseFallbackPattern '/' false false v]
      match fallbacks.findSome? id with
      | some c => Except.ok (resolveComponents c tzOffsetMinutes)
      | none =>
        Except.error ("Unrecognised datetime format: '" ++ String.mk v ++ "'")

/-! ## Durations

`parse_duration_to_seconds` is imported from `time_utils` by both `sacct.py`
and `cli.py` (and exercised by the repository's tests) but its definition is
absent from the sources provided. -/

/-- Modelled from the spec: `parse_duration_to_seconds` is missing from
`src/`; the spec gives the duration grammar `[[days-]hours:]minutes:seconds`
(also written `HH:MM:SS` or `D-HH:MM:SS`) with minutes and seconds in
`[0, 59]`, failing with `ValueError` on malformed input. -/
def parse_duration_to_seconds (value : String) : Except String ℚ :=
  let parts := pySplit value '-' none
  let timeOf (daysStr : Option String) (timeStr : String) : Except String ℚ :=
    let fields := pySplit timeStr ':' none
    let natField (s : String) (limit : Option Nat) : Option Nat :=
      if !s.data.isEmpty && s.data.all isAsciiDigit then
        let v := digitsToNat s.data
        match limit with
        | some l => if v ≤ l then some v else none
        | none => some v
      else none
    let days : Option Nat :=
      match daysStr with
      | none => some 0
      | some d => natField d none
    match days with
    | none => Except.error ("Invalid duration value: " ++ value)
    | some dv =>
      match fields with
      | [m, s] =>
        if daysStr.isSome then Except.error ("Invalid duration value: " ++ value)
        else
          match natField m (some 59), natField s (some 59) with
          | some mv, some sv => Except.ok ((mv * 60 + sv : Nat) : ℚ)
          | _, _ => Except.error ("Invalid duration value: " ++ value)
      | [h, m, s] =>
        match natField h none, natField m (some 59), natField s (some 59) with
        | some hv, some mv, some sv =>
          Except.ok ((dv * 86400 + hv * 3600 + mv * 60 + sv : Nat) : ℚ)
        | _, _, _ => Except.error ("Invalid duration value: " ++ value)
      | _ => Except.error ("Invalid duration value: " ++ value)
  match parts with
  | [t] => timeOf none t
  | [d, t] => timeOf (some d) t
  | _ => Except.error ("Invalid duration value: " ++ value)

/-! ## Data model (`models.py`) -/

/-- The source's `models.SacctRow`: the dataclass as declared in `models.py`.  Note that it
declares exactly these nine fields (there are no `job_id_raw`, `job_name` or
`submit_line` fields). -/
structure SacctRow where
  job_id : String
  user : String
  submit_time : PyDateTime
  start_time : PyDateTime
  state : String
  partition : String
  nodes : Option Int
  alloc_tres : Option String
  elapsed_seconds : Option ℚ
  deriving DecidableEq

/-- The source's `models.JobRecord`: a `SacctRow` augmented with waiting-time metadata. -/
structure JobRecord extends SacctRow where
  wait_seconds : ℚ
  job_type : Option String := none
  deriving DecidableEq

/-! ## Record parser (`sacct.py`) -/

def INVALID_START_VALUES : List String := ["unknown", "none", "", "n/a", "invalid"]

def EMPTY_FIELD_VALUES : List String := ["", "none", "n/a", "unknown", "(null)"]

/-- The `SacctRow(...)` constructor call made by `parse_sacct_output`
(`sacct.py` lines 144-159).  The dataclass in `models.py` does not declare
fields `job_id_raw`, `job_name` or `submit_line`, so CPython raises
`TypeError` for these keyword arguments and no row is ever constructed. -/
def sacctRowInit (_job_id : String) (_job_id_raw : String)
    (_job_name _submit_line : Option String) (_user : String)
    (_submit_time _start_time : PyDateTime) (_state _partition : String)
    (_nodes : Option Int) (_alloc_tres : Option String)
    (_elapsed_seconds : Option ℚ) : Except String SacctRow :=
  Except.error
    ("TypeError: SacctRow.__init__() got an unexpected keyword argument " ++
      "'job_id_raw'")

/-- The nested `process_parts` from `parse_sacct_output`: field-level processing of one
12-field logical record.  `ok none` models a dropped (logged) row; `error`
models an uncaught exception. -/
def processParts (parts : List String) (tzOffsetMinutes : Int) :
    Except String (Option SacctRow) :=
  match parts with
  | [job_id, job_id_raw, job_name, submit_line, _user, submit, start, _state,
      _partition, raw_nodes, alloc_tres, elapsed] =>
    if INVALID_START_VALUES.contains (pyLower (pyStrip start)) then
      Except.ok none
    else
      match parse_datetime submit tzOffsetMinutes,
            parse_datetime start tzOffsetMinutes with
      | Except.ok submit_dt, Except.ok start_dt =>
        let raw_nodes_stripped := pyStrip raw_nodes
        let nodes : Option Int :=
          if !raw_nodes_stripped.isEmpty &&
              !(EMPTY_FIELD_VALUES.contains (pyLower raw_nodes_stripped)) then
            match pyInt raw_nodes_stripped with
            | Except.ok n => some n
            | Except.error _ => none
          else none
        let alloc_tres_value : Option String :=
          let v := pyStrip alloc_tres
          if v.isEmpty then none
          else if EMPTY_FIELD_VALUES.contains (pyLower v) then none
          else some v
        let elapsed_value := pyStrip elapsed
        let elapsed_seconds : Option ℚ :=
          if !elapsed_value.isEmpty &&
              !(EMPTY_FIELD_VALUES.contains (pyLower elapsed_value)) then
            match parse_duration_to_seconds elapsed_value with
            | Except.ok q => some q
            | Except.error _ => none
          else none
        let job_id_raw_value : String :=
          let v := pyStrip job_id_raw
          if v.isEmpty then (pySplit job_id '.' (some 1)).headD job_id else v
        let job_name_value : Option String :=
          let v := pyStrip job_name
          if v.isEmpty then none
          else if EMPTY_FIELD_VALUES.contains (pyLower v) then none
          else some v
        let submit_line_value : Option String :=
          let v := pyStrip submit_line
          if v.isEmpty then none
          else if EMPTY_FIELD_VALUES.contains (pyLower v) then none
          else some v
        match sacctRowInit job_id job_id_raw_value job_name_value
            submit_line_value _user submit_dt start_dt _state _partition nodes
            alloc_tres_value elapsed_seconds with
        | Except.ok row => Except.ok (some row)
        | Except.error e => Except.error e
      | _, _ => Except.ok none
  | _ => Except.error ("ValueError: not enough values to unpack")

/-- The line-accumulation loop of `parse_sacct_output` (lines 161-177):
blank lines are skipped only while no logical record is being accumulated;
each added line re-attempts `split("|", 11)`; fewer than 12 fields keeps
accumulating; more than 12 would discard the buffer (unreachable, since
`maxsplit=11` yields at most 12 parts); exactly 12 commits the record.  A
trailing unfinished buffer is only logged. -/
def recordSplitAux : List String → List String → List (List String)
  | _pending, [] => []
  | pending, line :: rest =>
    if pending.isEmpty && (pyStrip line).isEmpty then
      recordSplitAux pending rest
    else
      let pending' := pending ++ [line]
      let raw_row := String.intercalate ("\n") pending'
      let parts := pySplit raw_row '|' (some 11)
      if parts.length < 12 then recordSplitAux pending' rest
      else if parts.length > 12 then recordSplitAux [] rest
      else parts :: recordSplitAux [] rest

/-- The logical records committed by the accumulation loop, in order. -/
def recordSplit (output : String) : List (List String) :=
  recordSplitAux [] (pySplitlines output)

/-- The source's `sacct.parse_sacct_output`: the accumulation loop interleaved with
`process_parts` (the loop state does not depend on `process_parts`, so the
two phases compose); an exception from `process_parts` aborts the whole
call, as in Python. -/
def parse_sacct_output (output : String) (tzOffsetMinutes : Int) :
    Except String (List SacctRow) :=
  (recordSplit output).foldlM
    (fun rows parts =>
      match processParts parts tzOffsetMinutes with
      | Except.ok none => Except.ok rows
      | Except.ok (some row) => Except.ok (rows ++ [row])
      | Except.error e => Except.error e)
    []

/-! ## Classifier (`processing.py`) -/

/-- Python `re.sub(r"\([^)]*\)", "", s)`: each `(` with a later `)` is removed
together with the (non-`)`) characters between them; a `(` with no closing
`)` is left in place. -/
def removeParensAux : Nat → List Char → List Char
  | 0, s => s
  | _ + 1, [] => []
  | fuel + 1, '(' :: rest =>
    match rest.span (fun c => !(c = ')')) with
    | (_, []) => '(' :: removeParensAux fuel rest
    | (_, _ :: after) => removeParensAux fuel after
  | fuel + 1, c :: rest => c :: removeParensAux fuel rest

def removeParens (s : List Char) : List Char :=
  removeParensAux (s.length + 1) s

/-- First run of digits in a string (`re.search(r"(\d+)", value)`). -/
def firstDigitRun : List Char → Option Nat
  | [] => none
  | c :: rest =>
    if isAsciiDigit c then
      some (digitsToNat (c :: rest.takeWhile isAsciiDigit))
    else firstDigitRun rest

/-- The TRES-encoding loop of `_count_gpus` (lines 24-50): fold over the
comma-separated chunks, tracking whether any chunk starts with `gres/gpu`
and the accumulated GPU total. -/
def tresScan (cleaned : String) : Bool × Int :=
  (pySplit cleaned ',' none).foldl
    (fun acc chunk0 =>
      let chunk := pyStrip chunk0
      if chunk.isEmpty then acc
      else if !(pyStartswith (pyLower chunk) ("gres/gpu")) then acc
      else
        let acc := (true, acc.2)
        if !(pyContainsChar chunk '=') then acc
        else
          let value := pyStrip (pyPartition chunk '=').2.2
          if value.isEmpty then acc
          else
            match pyInt value with
            | Except.ok n => (true, acc.2 + n)
            | Except.error _ =>
              match firstDigitRun value.data with
              | some n => (true, acc.2 + (n : Int))
              | none => acc)
    (false, 0)

/-- A character matched by `[^,()]`. -/
def gpuTokenChar (c : Char) : Bool :=
  !(c = ',' || c = '(' || c = ')')

/-- Backtracking matcher for the suffix `(?::[^,()]+)*:(\d+)` of
`_GPU_PATTERN`, positioned just after a (case-insensitive) `gpu` literal:
greedy repetition tried before exit, longer `[^,()]+` runs tried first, and
the final `\d+` capture greedy — Python's exploration order.  Returns the
consumed length and the captured number.  `fuel` bounds the recursion depth;
each repetition consumes at least two characters, so `t.length + 1` fuel is
always sufficient. -/
def gpuColonRest : Nat → List Char → Option (Nat × Nat)
  | 0, _ => none
  | fuel + 1, t =>
    match t with
    | ':' :: u =>
      let maxX := (u.takeWhile gpuTokenChar).length
      let rep := (List.range maxX).findSome? (fun i =>
        let len := maxX - i
        match gpuColonRest fuel (u.drop len) with
        | some (n, cap) => some (1 + len + n, cap)
        | none => none)
      match rep with
      | some r => some r
      | none =>
        let ds := u.takeWhile isAsciiDigit
        if ds.isEmpty then none else some (1 + ds.length, digitsToNat ds)
    | _ => none

/-- The source's `_GPU_PATTERN.findall(cleaned)`: scan for non-overlapping, leftmost
matches of `gpu(?::[^,()]+)*:(\d+)` (case-insensitive), returning the
captured counts in order. -/
def gpuFindallAux : Nat → List Char → List Nat
  | 0, _ => []
  | fuel + 1, s =>
    match s with
    | [] => []
    | _ :: rest =>
      if (s.take 3).map Char.toLower == ['g', 'p', 'u'] then
        match gpuColonRest ((s.drop 3).length + 1) (s.drop 3) with
        | some (n, cap) => cap :: gpuFindallAux fuel (s.drop (3 + n))
        | none => gpuFindallAux fuel rest
      else gpuFindallAux fuel rest

def gpuFindall (cleaned : List Char) : List Nat :=
  gpuFindallAux (cleaned.length + 1) cleaned

/-- The source's `processing._count_gpus`. -/
def count_gpus (alloc_tres : Option String) : Int :=
  match alloc_tres with
  | none => 0
  | some s =>
    if s.isEmpty then 0
    else
      let cleaned := removeParens s.data
      let scan := tresScan (String.mk cleaned)
      if scan.1 then scan.2
      else ((gpuFindall cleaned).sum : Int)

/-- The source's `processing.RuntimeConstraint` (frozen dataclass). -/
structure RuntimeConstraint where
  min_seconds : Option ℚ
  max_seconds : Option ℚ
  min_inclusive : Bool
  max_inclusive : Bool
  deriving DecidableEq

/-- The source's `RuntimeConstraint.matches`. -/
def RuntimeConstraint.matchesValue (c : RuntimeConstraint) (value : ℚ) : Bool :=
  let minOk :=
    match c.min_seconds with
    | none => true
    | some m =>
      if value < m then false
      else if !c.min_inclusive && value == m then false
      else true
  let maxOk :=
    match c.max_seconds with
    | none => true
    | some m =>
      if m < value then false
      else if !c.max_inclusive && value == m then false
      else true
  minOk && maxOk

/-- The source's `processing.determine_job_type`. -/
def determine_job_type (row : SacctRow) : Option String :=
  let nodes := row.nodes
  let gpu_count := count_gpus row.alloc_tres
  if (match nodes with | some n => decide (1 < n) | none => false) then
    some ("multi-node")
  else if gpu_count = 0 then some ("cpu-only")
  else if gpu_count = 1 then some ("1-gpu")
  else if nodes = some 1 || nodes = none then some ("single-node")
  else none

/-! ## Filter pipeline (`processing.py`) -/

/-- Item collector for `fnmatch` bracket classes: a `]` in first position is
literal, `a-b` forms a range unless the `-` is last before the closing `]`. -/
def fnmatchCollect : Nat → List Char → List (Char × Char) →
    Option (List (Char × Char) × List Char)
  | 0, _, _ => none
  | _ + 1, [], _ => none
  | fuel + 1, c :: rest, acc =>
    if c = ']' && !acc.isEmpty then some (acc.reverse, rest)
    else
      match rest with
      | '-' :: hi :: rest' =>
        if hi = ']' then fnmatchCollect fuel ('-' :: hi :: rest') ((c, c) :: acc)
        else fnmatchCollect fuel rest' ((c, hi) :: acc)
      | _ => fnmatchCollect fuel rest ((c, c) :: acc)

/-- Character-class parser for `fnmatch` brackets: returns the negation flag,
the ranges, and the remainder after the closing `]`, or `none` when the
bracket is unterminated (in which case `[` matches literally). -/
def fnmatchBracket (p : List Char) : Option (Bool × List (Char × Char) × List Char) :=
  let (neg, p1) :=
    match p with
    | '!' :: rest => (true, rest)
    | _ => (false, p)
  match fnmatchCollect (p1.length + 1) p1 [] with
  | some (ranges, rest) => some (neg, ranges, rest)
  | none => none

/-- Glob matching as produced by `fnmatch.translate`: `*` matches any
sequence, `?` any single character, `[...]`/`[!...]` character classes with
ranges; an unterminated `[` is literal.  `fuel` bounds recursion depth
(`p.length + s.length + 1` suffices, every step shortens `p` or `s`). -/
def fnmatchAux : Nat → List Char → List Char → Bool
  | 0, _, _ => false
  | fuel + 1, p, s =>
    match p with
    | [] => s.isEmpty
    | '*' :: p' =>
      fnmatchAux fuel p' s ||
        (match s with
         | [] => false
         | _ :: s' => fnmatchAux fuel ('*' :: p') s')
    | '?' :: p' =>
      match s with
      | [] => false
      | _ :: s' => fnmatchAux fuel p' s'
    | '[' :: p' =>
      match fnmatchBracket p' with
      | some (neg, ranges, pRest) =>
        match s with
        | [] => false
        | c :: s' =>
          (neg != ranges.any (fun r => r.1 ≤ c && c ≤ r.2)) &&
            fnmatchAux fuel pRest s'
      | none =>
        match s with
        | [] => false
        | c :: s' => c = '[' && fnmatchAux fuel p' s'
    | pc :: p' =>
      match s with
      | [] => false
      | c :: s' => c = pc && fnmatchAux fuel p' s'

/-- Python `fnmatch.fnmatch(value, pattern)` (POSIX case normalisation is the
identity). -/
def fnmatchMatch (value pattern : String) : Bool :=
  fnmatchAux (pattern.data.length + value.data.length + 1) pattern.data value.data

/-- The source's `processing._matches`. -/
def anyPatternMatch (value : String) (patterns : List String) : Bool :=
  patterns.any (fun pattern => fnmatchMatch value pattern)

/-- Python truthiness of an optional list argument. -/
def truthyList (l : Option (List α)) : Bool :=
  match l with
  | none => false
  | some xs => !xs.isEmpty

/-- Python truthiness of an optional string argument. -/
def truthyStr (s : Option String) : Bool :=
  match s with
  | none => false
  | some v => !v.isEmpty

/-- Python `(a - b).total_seconds()` for aware datetimes. -/
def totalSecondsDiff (a b : PyDateTime) : ℚ :=
  ((a.epochMicros - b.epochMicros : Int) : ℚ) / 1000000

/-- The per-row body of the `filter_rows` loop: either skip the row (one of
the filters rejects it) or append the enriched record. -/
def filterStep (include_steps : Bool)
    (user_filters partition_filters : Option (List String))
    (job_type : Option String) (wait_cap : Option ℚ)
    (runtime_filters : Option (List RuntimeConstraint))
    (filtered : List JobRecord) (row : SacctRow) : List JobRecord :=
  if !include_steps && pyContainsChar row.job_id '.' then filtered
  else if truthyList user_filters &&
      !(anyPatternMatch row.user (user_filters.getD [])) then filtered
  else if truthyList partition_filters &&
      !(anyPatternMatch row.partition (partition_filters.getD [])) then
    filtered
  else
    let wait_seconds := totalSecondsDiff row.start_time row.submit_time
    let row_job_type := determine_job_type row
    if truthyStr job_type && row_job_type ≠ job_type then filtered
    else if wait_cap.any (fun cap => decide (cap < wait_seconds)) then filtered
    else if truthyList runtime_filters &&
        (row.elapsed_seconds.elim true
          (fun e =>
            !((runtime_filters.getD []).all
              (fun c => RuntimeConstraint.matchesValue c e)))) then filtered
    else
      filtered ++
        [{ job_id := row.job_id, user := row.user,
           submit_time := row.submit_time, start_time := row.start_time,
           state := row.state, partition := row.partition,
           nodes := row.nodes, alloc_tres := row.alloc_tres,
           elapsed_seconds := row.elapsed_seconds,
           wait_seconds := wait_seconds, job_type := row_job_type }]

/-- The source's `processing.filter_rows`. -/
def filter_rows (rows : List SacctRow) (include_steps : Bool)
    (user_filters partition_filters : Option (List String))
    (job_type : Option String) (max_wait_hours : Option ℚ)
    (runtime_filters : Option (List RuntimeConstraint)) : List JobRecord :=
  let wait_cap : Option ℚ := max_wait_hours.map (fun h => h * 3600)
  rows.foldl
    (filterStep include_steps user_filters partition_filters job_type
      wait_cap runtime_filters)
    []

/-! ## Runtime-constraint DSL (`cli.py`) -/

/-- Candidate lengths for `\d+` at the head of `s`, longest (greedy) first. -/
def nChoices (s : List Char) : List Nat :=
  let r := (s.takeWhile isAsciiDigit).length
  (List.range r).map (fun i => r - i)

/-- Candidate lengths for `[0-5]?\d` at the head of `s`, two digits (with the
first in `0-5`) preferred over one. -/
def mChoices (s : List Char) : List Nat :=
  match s with
  | c1 :: c2 :: _ =>
    (if ('0' ≤ c1 && c1 ≤ '5') && isAsciiDigit c2 then [2] else []) ++
      (if isAsciiDigit c1 then [1] else [])
  | [c1] => if isAsciiDigit c1 then [1] else []
  | [] => []

/-- Candidate consumed lengths for `\d+:[0-5]?\d:[0-5]?\d` at the head of
`s`, in backtracking preference order. -/
def coreChoices (s : List Char) : List Nat :=
  (nChoices s).flatMap (fun n =>
    match s.drop n with
    | ':' :: s2 =>
      (mChoices s2).flatMap (fun m1 =>
        match s2.drop m1 with
        | ':' :: s4 => (mChoices s4).map (fun m2 => n + 1 + m1 + 1 + m2)
        | _ => [])
    | _ => [])

/-- Candidate consumed lengths for the duration group
`(?:\d+-)?\d+:[0-5]?\d:[0-5]?\d`, the optional day prefix tried (greedily)
before its absence. -/
def durChoices (s : List Char) : List Nat :=
  ((nChoices s).flatMap (fun n =>
    match s.drop n with
    | '-' :: s2 => (coreChoices s2).map (fun c => n + 1 + c)
    | _ => [])) ++ coreChoices s

/-- The source's `_RUNTIME_RANGE_PATTERN.match(raw)`: the anchored pattern
`^(start)-(end)$` with both groups matching the duration group above; the
first split found in Python's backtracking order yields the two captures. -/
def rangeMatch (s : List Char) : Option (String × String) :=
  (durChoices s).findSome? (fun d1 =>
    match s.drop d1 with
    | '-' :: rest2 =>
      (durChoices rest2).findSome? (fun d2 =>
        if (rest2.drop d2).isEmpty then
          some (String.mk (s.take d1), String.mk (rest2.take d2))
        else none)
    | _ => none)

/-- The source's `cli._parse_runtime_value`: errors are `CliError` messages naming the
offending literal. -/
def parse_runtime_value (value : String) : Except String RuntimeConstraint :=
  if pyFalsyStr value || pyFalsyStr (pyStrip value) then
    Except.error ("--runtime requires a non-empty value")
  else
    let raw := pyStrip value
    let lowered := pyLower raw
    if pyStartswith lowered ("shorter:") then
      let duration := (pyPartition raw ':').2.2
      if pyFalsyStr duration then
        Except.error ("Invalid --runtime value '" ++ value ++ "': missing duration")
      else
        match parse_duration_to_seconds duration with
        | Except.error exc =>
          Except.error ("Invalid --runtime value '" ++ value ++ "': " ++ exc)
        | Except.ok seconds =>
          Except.ok ⟨none, some seconds, true, false⟩
    else if pyStartswith lowered ("longer:") then
      let duration := (pyPartition raw ':').2.2
      if pyFalsyStr duration then
        Except.error ("Invalid --runtime value '" ++ value ++ "': missing duration")
      else
        match parse_duration_to_seconds duration with
        | Except.error exc =>
          Except.error ("Invalid --runtime value '" ++ value ++ "': " ++ exc)
        | Except.ok seconds =>
          Except.ok ⟨some seconds, none, false, true⟩
    else
      match rangeMatch raw.data with
      | some (gStart, gEnd) =>
        (match parse_duration_to_seconds gStart, parse_duration_to_seconds gEnd with
         | Except.ok start_seconds, Except.ok end_seconds =>
           if end_seconds < start_seconds then
             Except.error
               ("Invalid --runtime range '" ++ value ++ "': start exceeds end")
           else Except.ok ⟨some start_seconds, some end_seconds, true, true⟩
         | Except.error exc, _ =>
           Except.error ("Invalid --runtime value '" ++ value ++ "': " ++ exc)
         | _, Except.error exc =>
           Except.error ("Invalid --runtime value '" ++ value ++ "': " ++ exc))
      | none =>
        let cmpCase (pfx : String) (inclusive : Bool) :
            Except String RuntimeConstraint :=
          let duration := pyStrip (String.mk (raw.data.drop pfx.data.length))
          match parse_duration_to_seconds duration with
          | Except.error exc =>
            Except.error ("Invalid --runtime value '" ++ value ++ "': " ++ exc)
          | Except.ok seconds =>
            if pyStartswith pfx ("<") then
              Except.ok ⟨none, some seconds, true, inclusive⟩
            else if pyStartswith pfx (">") then
              Except.ok ⟨some seconds, none, inclusive, true⟩
            else Except.ok ⟨some seconds, some seconds, true, true⟩
        if pyStartswith raw ("<=") then cmpCase ("<=") true
        else if pyStartswith raw (">=") then cmpCase (">=") true
        else if pyStartswith raw ("<") then cmpCase ("<") false
        else if pyStartswith raw (">") then cmpCase (">") false
        else if pyStartswith raw ("=") then cmpCase ("=") true
        else
          match parse_duration_to_seconds raw with
          | Except.error exc =>
            Except.error ("Invalid --runtime value '" ++ value ++ "': " ++ exc)
          | Except.ok seconds =>
            Except.ok ⟨some seconds, some seconds, true, true⟩

/-- The source's `cli._parse_runtime_filters`: a failing expression aborts the whole
parse, each expression is parsed independently. -/
def parse_runtime_filters (values : Option (List String)) :
    Except String (List RuntimeConstraint) :=
  match values with
  | none => Except.ok []
  | some vs => if vs.isEmpty then Except.ok [] else vs.mapM parse_runtime_value

/-! ## Histogram statistics (`time_utils.py`, `histogram.py`) -/

/-- The floor `⌊q⌋` computed by flooring integer division (kernel-reducible; agrees
with `Int.floor`, see `ratFloor_eq_floor`). -/
def ratFloor (q : ℚ) : Int :=
  q.num.fdiv (q.den : Int)

/-- The ceiling `⌈q⌉` (kernel-reducible; agrees with `Int.ceil`, see `ratCeil_eq_ceil`). -/
def ratCeil (q : ℚ) : Int :=
  -(ratFloor (-q))

/-- Scan upward from `k` for the first value whose successor's square
exceeds `n`. -/
def natSqrtScan (n : Nat) : Nat → Nat → Nat
  | 0, k => k
  | fuel + 1, k => if n < (k + 1) * (k + 1) then k else natSqrtScan n fuel (k + 1)

/-- The integer square root `⌊√n⌋` as the first `k` with `n < (k+1)²` (kernel-reducible; agrees with
`Nat.sqrt`, see `natSqrtLinear_eq_sqrt`). -/
def natSqrtLinear (n : Nat) : Nat :=
  natSqrtScan n (n + 1) 0

/-- Stable insertion of a value into an ascending list. -/
def insertSorted (x : ℚ) : List ℚ → List ℚ
  | [] => [x]
  | y :: ys => if x ≤ y then x :: y :: ys else y :: insertSorted x ys

/-- Python's `sorted` / `list.sort()` (ascending).  On a list of rationals
every ascending sort produces the same list (equal elements are
indistinguishable), so stable insertion sort models Timsort exactly. -/
def pySorted (l : List ℚ) : List ℚ :=
  l.foldr insertSorted []

/-- Linear-interpolation percentile on sorted data, as implemented both by
the local `percentile` inside `freedman_diaconis_bins` and by
`histogram._percentile`: position `(n-1)·p`, interpolating between the
neighbouring ranks.  Their `ValueError` guards (fraction outside `[0,1]`,
empty input) are unreachable at every call site (fractions 1/4, 3/4 and
0.95 on non-empty data) and are omitted here. -/
def percentileSorted (data : List ℚ) (p : ℚ) : ℚ :=
  let n := data.length
  let idx : ℚ := ((n : ℚ) - 1) * p
  let lower : Int := ratFloor idx
  let upper : Int := ratCeil idx
  if lower = upper then data.getD lower.toNat 0
  else
    let lower_value := data.getD lower.toNat 0
    let upper_value := data.getD upper.toNat 0
    lower_value + (upper_value - lower_value) * (idx - (lower : ℚ))

/-- Python `int(round(n ** 0.5))` for a natural `n`: equals `⌊√n + 1/2⌋`, since
`⌊(x+1)/2⌋` is unchanged by replacing `x = √(4n)` with `⌊√(4n)⌋` (Python's
round-half-to-even differs only when `√n` is exactly midway between two
integers, impossible for an integer radicand). -/
def pyRoundSqrt (n : Nat) : Int :=
  ((natSqrtLinear (4 * n) + 1) / 2 : Nat)

/-- The least integer `z` with `r ≤ z³`, i.e. `⌈r^(1/3)⌉` exactly: searched
over `[-b, b]` where `b = max 1 ⌈|r|⌉` bounds the cube root (`b³ ≥ b ≥ |r|`). -/
def ceilCbrt (r : ℚ) : Int :=
  let b : Nat := max 1 ((ratCeil |r|).toNat)
  let candidates := (List.range (2 * b + 1)).map (fun i => (i : Int) - (b : Int))
  (candidates.find? (fun z => decide (r ≤ ((z : Int) : ℚ) ^ 3))).getD 0

/-- The source's `time_utils.freedman_diaconis_bins`.  In the Freedman-Diaconis branch,
`ceil(range / width)` with `width = 2·IQR / n^(1/3)` equals
`⌈((range / (2·IQR))³ · n)^(1/3)⌉`, computed exactly by `ceilCbrt`. -/
def freedman_diaconis_bins (values : List ℚ) : Except String Int :=
  let n := values.length
  if n = 0 then
    Except.error ("freedman_diaconis_bins() requires at least one data point")
  else if n = 1 then Except.ok 1
  else
    let data := pySorted values
    let q1 := percentileSorted data (1 / 4)
    let q3 := percentileSorted data (3 / 4)
    let iqr := q3 - q1
    if iqr = 0 then Except.ok (max 1 (pyRoundSqrt n))
    else
      let data_range := data.getLast?.getD 0 - data.headD 0
      if data_range = 0 then Except.ok 1
      else Except.ok (max 1 (ceilCbrt ((data_range / (2 * iqr)) ^ 3 * n)))

/-- The source's `histogram.prepare_histogram_values`. -/
def prepare_histogram_values (records : List JobRecord) (use_seconds : Bool) :
    List ℚ :=
  if use_seconds then records.map (fun r => r.wait_seconds)
  else records.map (fun r => r.wait_seconds / 60)

/-- The data side of `histogram.create_histogram` (lines 133-157): values,
the non-positive-value substitution, the bin-count defaulting and clamping,
the 95th-percentile cutoff and the typical/tail split.  Rendering calls are
out of scope.  The source's second `if bins is None` re-defaulting (line
149) is dead — `bins` was already defaulted at line 135 — and is omitted. -/
structure HistogramData where
  bins : Int
  adjusted_values : List ℚ
  typical_cutoff : ℚ
  typical_values : List ℚ
  tail_values : List ℚ
  deriving DecidableEq

def create_histogram_data (records : List JobRecord) (use_seconds : Bool)
    (bins : Option Int) : Except String HistogramData :=
  if records.isEmpty then
    Except.error ("create_histogram requires at least one record")
  else
    let values := prepare_histogram_values records use_seconds
    match (match bins with
           | none => freedman_diaconis_bins values
           | some b => Except.ok b) with
    | Except.error e => Except.error e
    | Except.ok bins0 =>
      let min_positive : ℚ :=
        ((values.filter (fun v => decide (0 < v))).min?).getD (1 / 1000)
      let adjusted_values :=
        values.map (fun v => if 0 < v then v else min_positive / 2)
      let bins1 := max 1 (min 80 bins0)
      let sorted_values := pySorted adjusted_values
      let typical_cutoff := percentileSorted sorted_values (95 / 100)
      let typical_values := adjusted_values.filter (fun v => decide (v ≤ typical_cutoff))
      let tail_values := adjusted_values.filter (fun v => decide (typical_cutoff < v))
      Except.ok
        { bins := bins1, adjusted_values := adjusted_values,
          typical_cutoff := typical_cutoff, typical_values := typical_values,
          tail_values := tail_values }

/-! ## Shared concrete inputs for instantiating the theorems -/

/-- A well-formed sacct line from the repository's own test suite
(`tests/test_sacct.py`). -/
def goodSacctLine : String :=
  "123|123|job-a|sbatch job-a.sh|alice|2024-05-01T10:00:00|2024-05-01T10:05:00|COMPLETED|debug|1|cpu=4,mem=8G,node=1,gres/gpu=1|00:30:00"

/-- Rows whose start field is a sentinel or whose timestamp is malformed:
all dropped, none fatal. -/
def badRowsOnlyOutput : String :=
  "456|456|job-b|srun --pty bash|bob|2024-05-02T11:00:00|Unknown|PENDING|gpu|2|x|00:45:00\n123|123|job|sbatch script.sh|alice|not-a-time|2024-05-01T10:05:00|COMPLETED|debug|1|cpu=1,gres/gpu=1|00:10:00\n\ntrailing|junk"

/-- The multi-line submission-command block from the repository's own test
suite (`tests/test_sacct.py`): two embedded newlines inside the fourth
field. -/
def multilineSacctOutput : String :=
  "5300915|5300915|interactive|salloc -p debug --time=01:00:00 --pty bash -i -c\n      echo 'line one'\n      echo 'line two'\n    |carol|2025-08-30T17:40:10|2025-08-30T17:45:10|COMPLETED|gpu|1|cpu=4,mem=16G|00:05:00"

/-- A `SacctRow` with the given identifiers, instants (microseconds, UTC),
node count and resource descriptor. -/
def sampleRow (job_id : String) (submitMicros startMicros : Int)
    (nodes : Option Int) (alloc_tres : Option String) (elapsed : Option ℚ) :
    SacctRow :=
  { job_id := job_id, user := "alice",
    submit_time := { epochMicros := submitMicros, offsetMinutes := 0 },
    start_time := { epochMicros := startMicros, offsetMinutes := 0 },
    state := "COMPLETED", partition := "gpu", nodes := nodes,
    alloc_tres := alloc_tres, elapsed_seconds := elapsed }

/-- A job record with a 600-second wait, for histogram instantiations. -/
def sampleRecord : JobRecord :=
  { job_id := "1", user := "alice",
    submit_time := { epochMicros := 0, offsetMinutes := 0 },
    start_time := { epochMicros := 600000000, offsetMinutes := 0 },
    state := "COMPLETED", partition := "gpu", nodes := some 1,
    alloc_tres := none, elapsed_seconds := some 600,
    wait_seconds := 600, job_type := some ("cpu-only") }

/-! ## Bridge lemmas for the kernel-reducible arithmetic helpers -/

theorem ratFloor_eq_floor (q : ℚ) : ratFloor q = ⌊q⌋ := by
  rw [Rat.floor_def, ratFloor, Int.fdiv_eq_ediv _ (by positivity)]

theorem ratCeil_eq_ceil (q : ℚ) : ratCeil q = ⌈q⌉ := by
  rw [ratCeil, ratFloor_eq_floor, Int.floor_neg, neg_neg]

theorem natSqrtScan_spec (n : Nat) : ∀ fuel k, k * k ≤ n →
    n < (k + fuel) * (k + fuel) →
    natSqrtScan n fuel k * natSqrtScan n fuel k ≤ n ∧
      n < (natSqrtScan n fuel k + 1) * (natSqrtScan n fuel k + 1) := by
  intro fuel
  induction fuel with
  | zero =>
    intro k hk hk'
    simp only [Nat.add_zero] at hk'
    omega
  | succ fuel ih =>
    intro k hk hk'
    rw [natSqrtScan]
    by_cases h : n < (k + 1) * (k + 1)
    · rw [if_pos h]
      exact ⟨hk, h⟩
    · rw [if_neg h]
      refine ih (k + 1) (by omega) ?_
      rw [show k + 1 + fuel = k + (fuel + 1) from by omega]
      exact hk'

theorem natSqrtLinear_eq_sqrt (n : Nat) : natSqrtLinear n = Nat.sqrt n := by
  have hspec := natSqrtScan_spec n (n + 1) 0 (by omega) (by nlinarith)
  have h1 : natSqrtScan n (n + 1) 0 ≤ Nat.sqrt n := Nat.le_sqrt.mpr hspec.1
  have h2 : Nat.sqrt n < natSqrtScan n (n + 1) 0 + 1 := Nat.sqrt_lt.mpr hspec.2
  rw [natSqrtLinear]
  omega

/-! ## Claim theorems -/

set_option maxRecDepth 16000

/-- Claim C1 (code bug): `parse_sacct_output` is meant never to throw —
malformed rows are dropped and well-formed 12-field lines yield rows — and
it indeed absorbs bad rows (second conjunct), but on every well-formed line
the `SacctRow(...)` call raises `TypeError`, because `models.SacctRow`
declares no `job_id_raw`, `job_name` or `submit_line` fields while
`sacct.py` passes them as keyword arguments (the repository's own tests,
`tests/test_sacct.py`, assert those very attributes on the parsed rows).
The well-formed line used here is taken verbatim from that test suite. -/
theorem C1_parser_throws_on_wellformed_row :
    parse_sacct_output goodSacctLine 0 =
      Except.error
        ("TypeError: SacctRow.__init__() got an unexpected keyword argument " ++
          "'job_id_raw'") ∧
    parse_sacct_output badRowsOnlyOutput 0 = Except.ok [] := by
  constructor
  · rfl
  · rfl

/-- Claim C2 (code bug): the line-accumulation loop does commit the
multi-line block from `tests/test_sacct.py` as exactly one 12-field logical
record whose fourth (submission-command) field joins the embedded lines with
newlines (first conjunct), but `parse_sacct_output` then raises `TypeError`
at row construction instead of returning that row (second conjunct), for the
same `models.SacctRow` field mismatch as C1. -/
theorem C2_multiline_record_committed_but_no_row :
    recordSplit multilineSacctOutput =
      [["5300915", "5300915", "interactive",
        "salloc -p debug --time=01:00:00 --pty bash -i -c\n      echo 'line one'\n      echo 'line two'\n    ",
        "carol", "2025-08-30T17:40:10", "2025-08-30T17:45:10", "COMPLETED",
        "gpu", "1", "cpu=4,mem=16G", "00:05:00"]] ∧
    parse_sacct_output multilineSacctOutput 0 =
      Except.error
        ("TypeError: SacctRow.__init__() got an unexpected keyword argument " ++
          "'job_id_raw'") := by
  constructor
  · rfl
  · rfl

/-- The wait-time relation every emitted record satisfies by construction. -/
def waitExact (r : JobRecord) : Prop :=
  r.wait_seconds = totalSecondsDiff r.start_time r.submit_time

theorem filterStep_mem (include_steps : Bool)
    (uf pf : Option (List String)) (jt : Option String) (wc : Option ℚ)
    (rf : Option (List RuntimeConstraint)) (acc : List JobRecord)
    (row : SacctRow) (r : JobRecord)
    (h : r ∈ filterStep include_steps uf pf jt wc rf acc row) :
    r ∈ acc ∨ waitExact r := by
  rw [filterStep] at h
  dsimp only at h
  split_ifs at h
  case _ => exact Or.inl h
  case _ => exact Or.inl h
  case _ => exact Or.inl h
  case _ => exact Or.inl h
  case _ => exact Or.inl h
  case _ => exact Or.inl h
  case _ =>
    rcases List.mem_append.mp h with hacc | hnew
    · exact Or.inl hacc
    · rcases List.mem_singleton.mp hnew with rfl
      exact Or.inr rfl

theorem filter_fold_waitExact (include_steps : Bool)
    (uf pf : Option (List String)) (jt : Option String) (wc : Option ℚ)
    (rf : Option (List RuntimeConstraint)) :
    ∀ (rows : List SacctRow) (acc : List JobRecord),
      (∀ r ∈ acc, waitExact r) →
      ∀ r ∈ rows.foldl (filterStep include_steps uf pf jt wc rf) acc,
        waitExact r := by
  intro rows
  induction rows with
  | nil => intro acc hacc r hr; exact hacc r hr
  | cons row rows ih =>
    intro acc hacc r hr
    rw [List.foldl_cons] at hr
    refine ih _ ?_ r hr
    intro r' hr'
    rcases filterStep_mem include_steps uf pf jt wc rf acc row r' hr' with h | h
    · exact hacc r' h
    · exact h

/-- Claim C3, counterexample: `filter_rows` emits a record with strictly
negative `wait_seconds` for a row whose start precedes its submit time (the
pipeline nowhere enforces `submit ≤ start`), so "`wait_seconds ≥ 0` for
every emitted Record" is false as stated. -/
theorem C3_counterexample_negative_wait :
    ∃ r ∈ filter_rows [sampleRow ("neg") 120000000 60000000 (some 1) none none]
        false none none none none none, r.wait_seconds < 0 := by
  refine ⟨{ job_id := "neg", user := "alice",
            submit_time := { epochMicros := 120000000, offsetMinutes := 0 },
            start_time := { epochMicros := 60000000, offsetMinutes := 0 },
            state := "COMPLETED", partition := "gpu", nodes := some 1,
            alloc_tres := none, elapsed_seconds := none,
            wait_seconds :=
              totalSecondsDiff { epochMicros := 60000000, offsetMinutes := 0 }
                { epochMicros := 120000000, offsetMinutes := 0 },
            job_type := some ("cpu-only") }, ?_, ?_⟩
  · have heq : filter_rows
        [sampleRow ("neg") 120000000 60000000 (some 1) none none]
        false none none none none none =
        [{ job_id := "neg", user := "alice",
           submit_time := { epochMicros := 120000000, offsetMinutes := 0 },
           start_time := { epochMicros := 60000000, offsetMinutes := 0 },
           state := "COMPLETED", partition := "gpu", nodes := some 1,
           alloc_tres := none, elapsed_seconds := none,
           wait_seconds :=
             totalSecondsDiff { epochMicros := 60000000, offsetMinutes := 0 }
               { epochMicros := 120000000, offsetMinutes := 0 },
           job_type := some ("cpu-only") }] := rfl
    rw [heq]
    exact List.mem_singleton.mpr rfl
  · show totalSecondsDiff { epochMicros := 60000000, offsetMinutes := 0 }
      { epochMicros := 120000000, offsetMinutes := 0 } < 0
    rw [totalSecondsDiff]
    norm_num

/-- Claim C3 (amended): every record emitted by `filter_rows` has
`wait_seconds` exactly equal to `start_time - submit_time` in seconds, and
`wait_seconds ≥ 0` whenever the source row satisfies the data-model
invariant `submit_time ≤ start_time` (which the code does not enforce, see
the counterexample). -/
theorem C3_wait_seconds_exact_and_nonneg_when_ordered
    (rows : List SacctRow) (include_steps : Bool)
    (uf pf : Option (List String)) (jt : Option String) (mwh : Option ℚ)
    (rf : Option (List RuntimeConstraint)) (r : JobRecord)
    (hr : r ∈ filter_rows rows include_steps uf pf jt mwh rf) :
    r.wait_seconds = totalSecondsDiff r.start_time r.submit_time ∧
    (r.submit_time.epochMicros ≤ r.start_time.epochMicros →
      0 ≤ r.wait_seconds) := by
  have hexact : waitExact r := by
    rw [filter_rows] at hr
    exact filter_fold_waitExact include_steps uf pf jt
      (mwh.map (fun h => h * 3600)) rf rows [] (by intro r' hr'; cases hr') r hr
  refine ⟨hexact, ?_⟩
  intro hord
  rw [hexact, totalSecondsDiff]
  apply div_nonneg _ (by norm_num)
  have : (0 : Int) ≤ r.start_time.epochMicros - r.submit_time.epochMicros := by
    omega
  exact_mod_cast this

/-- Witness for C3: a concrete row with `submit ≤ start` passes the filter
and the theorem instantiates at its emitted record. -/
theorem C3_wait_seconds_witness :
    ({ job_id := "pos", user := "alice",
       submit_time := { epochMicros := 0, offsetMinutes := 0 },
       start_time := { epochMicros := 60000000, offsetMinutes := 0 },
       state := "COMPLETED", partition := "gpu", nodes := some 1,
       alloc_tres := none, elapsed_seconds := none,
       wait_seconds :=
         totalSecondsDiff { epochMicros := 60000000, offsetMinutes := 0 }
           { epochMicros := 0, offsetMinutes := 0 },
       job_type := some ("cpu-only") } : JobRecord).wait_seconds =
        totalSecondsDiff { epochMicros := 60000000, offsetMinutes := 0 }
          { epochMicros := 0, offsetMinutes := 0 } ∧
    (0 : ℚ) ≤
      ({ job_id := "pos", user := "alice",
         submit_time := { epochMicros := 0, offsetMinutes := 0 },
         start_time := { epochMicros := 60000000, offsetMinutes := 0 },
         state := "COMPLETED", partition := "gpu", nodes := some 1,
         alloc_tres := none, elapsed_seconds := none,
         wait_seconds :=
           totalSecondsDiff { epochMicros := 60000000, offsetMinutes := 0 }
             { epochMicros := 0, offsetMinutes := 0 },
         job_type := some ("cpu-only") } : JobRecord).wait_seconds := by
  have h := C3_wait_seconds_exact_and_nonneg_when_ordered
    [sampleRow ("pos") 0 60000000 (some 1) none none]
    false none none none none none
    { job_id := "pos", user := "alice",
      submit_time := { epochMicros := 0, offsetMinutes := 0 },
      start_time := { epochMicros := 60000000, offsetMinutes := 0 },
      state := "COMPLETED", partition := "gpu", nodes := some 1,
      alloc_tres := none, elapsed_seconds := none,
      wait_seconds :=
        totalSecondsDiff { epochMicros := 60000000, offsetMinutes := 0 }
          { epochMicros := 0, offsetMinutes := 0 },
      job_type := some ("cpu-only") }
    (by
      have heq : filter_rows
          [sampleRow ("pos") 0 60000000 (some 1) none none]
          false none none none none none =
          [{ job_id := "pos", user := "alice",
             submit_time := { epochMicros := 0, offsetMinutes := 0 },
             start_time := { epochMicros := 60000000, offsetMinutes := 0 },
             state := "COMPLETED", partition := "gpu", nodes := some 1,
             alloc_tres := none, elapsed_seconds := none,
             wait_seconds :=
               totalSecondsDiff { epochMicros := 60000000, offsetMinutes := 0 }
                 { epochMicros := 0, offsetMinutes := 0 },
             job_type := some ("cpu-only") }] := rfl
      rw [heq]
      exact List.mem_singleton.mpr rfl)
  exact ⟨h.1, h.2 (by norm_num)⟩

/-- Claim C4, counterexample: a one-GPU, one-node row is classified
`"1-gpu"`, not `"single-GPU"` as the claim's label says (the CLI's
`--job-type` choices and the repository's tests both use `"1-gpu"`). -/
theorem C4_counterexample_single_gpu_label :
    determine_job_type (sampleRow ("d") 0 0 (some 1) (some ("gres/gpu=1")) none) =
      some ("1-gpu") ∧
    determine_job_type (sampleRow ("d") 0 0 (some 1) (some ("gres/gpu=1")) none) ≠
      some ("single-GPU") := by
  constructor
  · rfl
  · intro h
    exact absurd (Option.some.inj h) (by decide)

/-- Claim C4 (amended): the decision order is as claimed with the
single-GPU category labelled `"1-gpu"`: known node count `> 1` gives
`"multi-node"`; else GPU count `0` gives `"cpu-only"`; else GPU count
exactly `1` gives `"1-gpu"`; else node count `1` or unknown gives
`"single-node"`; else unresolved (`none`); and the four spec scenarios hold
with that labelling. -/
theorem C4_job_type_decision_order :
    (∀ (row : SacctRow) (n : Int), row.nodes = some n → 1 < n →
      determine_job_type row = some ("multi-node")) ∧
    (∀ row : SacctRow, (∀ n : Int, row.nodes = some n → n ≤ 1) →
      count_gpus row.alloc_tres = 0 →
      determine_job_type row = some ("cpu-only")) ∧
    (∀ row : SacctRow, (∀ n : Int, row.nodes = some n → n ≤ 1) →
      count_gpus row.alloc_tres = 1 →
      determine_job_type row = some ("1-gpu")) ∧
    (∀ row : SacctRow, (row.nodes = some 1 ∨ row.nodes = none) →
      count_gpus row.alloc_tres ≠ 0 → count_gpus row.alloc_tres ≠ 1 →
      determine_job_type row = some ("single-node")) ∧
    (∀ (row : SacctRow) (n : Int), row.nodes = some n → n ≤ 1 → n ≠ 1 →
      count_gpus row.alloc_tres ≠ 0 → count_gpus row.alloc_tres ≠ 1 →
      determine_job_type row = none) ∧
    determine_job_type (sampleRow ("a") 0 0 (some 1) (some ("gres/gpu=4")) none) =
      some ("single-node") ∧
    determine_job_type (sampleRow ("b") 0 0 (some 2) (some ("gpu:4")) none) =
      some ("multi-node") ∧
    determine_job_type (sampleRow ("c") 0 0 (some 1) none none) =
      some ("cpu-only") ∧
    determine_job_type (sampleRow ("d") 0 0 (some 1) (some ("gres/gpu=1")) none) =
      some ("1-gpu") := by
  refine ⟨?_, ?_, ?_, ?_, ?_, rfl, rfl, rfl, rfl⟩
  · intro row n hn h1
    rw [determine_job_type]
    rw [hn]
    simp [h1]
  · intro row hn h0
    rw [determine_job_type]
    rcases hrow : row.nodes with _ | n
    · simp [hrow, h0]
    · have hle := hn n hrow
      simp only [hrow, h0]
      simp [show ¬(1 < n) from by omega]
  · intro row hn h1
    rw [determine_job_type]
    rcases hrow : row.nodes with _ | n
    · simp [hrow, h1]
    · have hle := hn n hrow
      simp only [hrow, h1]
      simp [show ¬(1 < n) from by omega]
  · intro row hn h0 h1
    rw [determine_job_type]
    rcases hn with hrow | hrow
    · simp [hrow, h0, h1]
    · simp [hrow, h0, h1]
  · intro row n hrow hle hne h0 h1
    rw [determine_job_type]
    rw [hrow]
    simp [show ¬(1 < n) from by omega, h0, h1, hne]

/-- Witness for C4: instantiates each decision clause at a concrete row. -/
theorem C4_job_type_witness :
    determine_job_type (sampleRow ("w1") 0 0 (some 5) none none) =
      some ("multi-node") ∧
    determine_job_type (sampleRow ("w2") 0 0 (some 1) none none) =
      some ("cpu-only") ∧
    determine_job_type (sampleRow ("w3") 0 0 none (some ("gres/gpu=1")) none) =
      some ("1-gpu") ∧
    determine_job_type (sampleRow ("w4") 0 0 none (some ("gres/gpu=4")) none) =
      some ("single-node") ∧
    determine_job_type (sampleRow ("w5") 0 0 (some 0) (some ("gres/gpu=4")) none) =
      none := by
  refine ⟨?_, ?_, ?_, ?_, ?_⟩
  · exact C4_job_type_decision_order.1 _ 5 rfl (by norm_num)
  · exact C4_job_type_decision_order.2.1 _
      (by intro n hn; injection hn with hn; omega) (by rfl)
  · exact C4_job_type_decision_order.2.2.1 _
      (by intro n hn; cases hn) (by rfl)
  · exact C4_job_type_decision_order.2.2.2.1 _ (Or.inr rfl)
      (by decide) (by decide)
  · exact C4_job_type_decision_order.2.2.2.2.1 _ 0 rfl (by norm_num)
      (by norm_num) (by decide) (by decide)

/-- Claim C5: `_count_gpus` sums TRES (`gres/gpu...=value`) counts whenever
any comma-chunk matches that encoding, and only otherwise falls back to the
colon-style regex sum; on the mixed descriptor `"gres/gpu=2,gpu:8"` the
colon token (which alone would contribute 8) contributes nothing. -/
theorem C5_gpu_count_tres_precedence :
    (∀ s : String, (tresScan (String.mk (removeParens s.data))).1 = true →
      count_gpus (some s) = (tresScan (String.mk (removeParens s.data))).2) ∧
    (∀ s : String, (tresScan (String.mk (removeParens s.data))).1 = false →
      count_gpus (some s) = ((gpuFindall (removeParens s.data)).sum : Int)) ∧
    count_gpus (some ("gres/gpu=2,gpu:8")) = 2 ∧
    ((gpuFindall (removeParens ("gres/gpu=2,gpu:8").data)).sum : Int) = 8 := by
  refine ⟨?_, ?_, rfl, rfl⟩
  · intro s h
    by_cases hs : s.isEmpty
    · rw [String.isEmpty_iff] at hs
      subst hs
      exact absurd h (by decide)
    · rw [count_gpus]
      simp only [hs, Bool.false_eq_true, if_false]
      rw [if_pos h]
  · intro s h
    by_cases hs : s.isEmpty
    · rw [String.isEmpty_iff] at hs
      subst hs
      decide
    · rw [count_gpus]
      simp only [hs, Bool.false_eq_true, if_false]
      rw [if_neg (by rw [h]; exact Bool.false_ne_true)]

/-- Witness for C5: the TRES branch at the mixed descriptor, and the
colon-style fallback at a descriptor with no TRES token. -/
theorem C5_gpu_count_witness :
    count_gpus (some ("gres/gpu=2,gpu:8")) =
      (tresScan (String.mk (removeParens ("gres/gpu=2,gpu:8").data))).2 ∧
    count_gpus (some ("cpu=8,gpu:4")) =
      ((gpuFindall (removeParens ("cpu=8,gpu:4").data)).sum : Int) := by
  constructor
  · exact C5_gpu_count_tres_precedence.1 ("gres/gpu=2,gpu:8") (by rfl)
  · exact C5_gpu_count_tres_precedence.2.1 ("cpu=8,gpu:4") (by rfl)

theorem minOk_iff (mn : Option ℚ) (mi : Bool) (v : ℚ) :
    ((match mn with
      | none => true
      | some m =>
        if v < m then false
        else if !mi && v == m then false else true) = true) ↔
    (∀ m, mn = some m → (m < v ∨ (v = m ∧ mi = true))) := by
  cases mn with
  | none => simp
  | some m =>
    simp only [Option.some.injEq, forall_eq']
    split_ifs with h1 h2
    · simp only [Bool.false_eq_true, false_iff]
      rintro (h | ⟨rfl, _⟩)
      · linarith
      · linarith
    · rcases (Bool.and_eq_true _ _).mp h2 with ⟨h3, h4⟩
      have hmi : mi = false := by simpa using h3
      have hvm : v = m := by simpa using h4
      subst hvm
      simp [hmi]
    · simp only [true_iff]
      push_neg at h1
      rcases eq_or_lt_of_le h1 with heq | hlt
      · right
        refine ⟨heq.symm, ?_⟩
        by_contra hmi
        have hmi' : mi = false := by
          revert hmi; cases mi <;> simp
        apply h2
        simp [hmi', heq.symm]
      · left; exact hlt

theorem maxOk_iff (mx : Option ℚ) (ma : Bool) (v : ℚ) :
    ((match mx with
      | none => true
      | some m =>
        if m < v then false
        else if !ma && v == m then false else true) = true) ↔
    (∀ m, mx = some m → (v < m ∨ (v = m ∧ ma = true))) := by
  cases mx with
  | none => simp
  | some m =>
    simp only [Option.some.injEq, forall_eq']
    split_ifs with h1 h2
    · simp only [Bool.false_eq_true, false_iff]
      rintro (h | ⟨rfl, _⟩)
      · linarith
      · linarith
    · rcases (Bool.and_eq_true _ _).mp h2 with ⟨h3, h4⟩
      have hma : ma = false := by simpa using h3
      have hvm : v = m := by simpa using h4
      subst hvm
      simp [hma]
    · simp only [true_iff]
      push_neg at h1
      rcases eq_or_lt_of_le h1 with heq | hlt
      · right
        refine ⟨heq, ?_⟩
        by_contra hma
        have hma' : ma = false := by
          revert hma; cases ma <;> simp
        apply h2
        simp [hma', heq]
      · left; exact hlt

/-- Claim C6: `RuntimeConstraint.matches` evaluates each present bound with
its own inclusivity flag and an absent bound imposes no restriction; in
particular the constraint `max_seconds=3600, max_inclusive=False` rejects
exactly 3600 and accepts 3599, and the all-absent constraint accepts every
value. -/
theorem C6_runtime_constraint_semantics :
    (∀ (c : RuntimeConstraint) (v : ℚ),
      RuntimeConstraint.matchesValue c v = true ↔
        ((∀ m, c.min_seconds = some m → (m < v ∨ (v = m ∧ c.min_inclusive = true))) ∧
         (∀ m, c.max_seconds = some m → (v < m ∨ (v = m ∧ c.max_inclusive = true))))) ∧
    RuntimeConstraint.matchesValue ⟨none, some 3600, true, false⟩ 3600 = false ∧
    RuntimeConstraint.matchesValue ⟨none, some 3600, true, false⟩ 3599 = true ∧
    (∀ v : ℚ, RuntimeConstraint.matchesValue ⟨none, none, true, true⟩ v = true) := by
  refine ⟨?_, by rfl, by rfl, fun v => by rfl⟩
  intro c v
  rcases c with ⟨mn, mx, mi, ma⟩
  rw [RuntimeConstraint.matchesValue]
  rw [Bool.and_eq_true]
  exact and_congr (minOk_iff mn mi v) (maxOk_iff mx ma v)

/-- Witness for C6: the characterisation instantiated at a two-sided
constraint and an interior value. -/
theorem C6_runtime_constraint_witness :
    RuntimeConstraint.matchesValue ⟨some 10, some 20, true, true⟩ 15 = true := by
  refine (C6_runtime_constraint_semantics.1 ⟨some 10, some 20, true, true⟩ 15).mpr
    ⟨?_, ?_⟩
  · intro m hm
    injection hm with hm
    subst hm
    left
    norm_num
  · intro m hm
    injection hm with hm
    subst hm
    left
    norm_num

theorem dropWhile_all_false (p : Char → Bool) (l : List Char)
    (h : ∀ c ∈ l, p c = false) : l.dropWhile p = l := by
  cases l with
  | nil => rfl
  | cons a t =>
    rw [List.dropWhile_cons, h a (List.mem_cons_self a t)]
    simp

theorem stripChars_eq_self (l : List Char)
    (h : ∀ c ∈ l, isPyWhitespace c = false) : stripChars l = l := by
  rw [stripChars, dropWhile_all_false _ _ h,
    dropWhile_all_false _ _ (by intro c hc; exact h c (List.mem_reverse.mp hc)),
    List.reverse_reverse]

theorem pyStrip_eq_self (s : String)
    (h : ∀ c ∈ s.data, isPyWhitespace c = false) : pyStrip s = s := by
  rw [pyStrip, stripChars_eq_self _ h]

/-- Claim C7: `shorter:<duration>` parses to a constraint with only an
exclusive upper bound and `longer:<duration>` to one with only an exclusive
lower bound, for every duration string `D` the duration grammar accepts
(durations contain no whitespace, so the surrounding `strip` is the
identity); and the constraint parsed from `"shorter:01:00:00"` accepts
elapsed 1800 and rejects 3600 and 7200.  (`parse_duration_to_seconds` is
absent from `src/` and modelled from the spec.) -/
theorem C7_shorter_longer_dsl (D : String) (qs : ℚ)
    (hws : ∀ c ∈ D.data, isPyWhitespace c = false)
    (hD : parse_duration_to_seconds D = Except.ok qs) :
    parse_runtime_value ("shorter:" ++ D) =
      Except.ok ⟨none, some qs, true, false⟩ ∧
    parse_runtime_value ("longer:" ++ D) =
      Except.ok ⟨some qs, none, false, true⟩ ∧
    parse_runtime_value ("shorter:01:00:00") =
      Except.ok ⟨none, some 3600, true, false⟩ ∧
    RuntimeConstraint.matchesValue ⟨none, some 3600, true, false⟩ 1800 = true ∧
    RuntimeConstraint.matchesValue ⟨none, some 3600, true, false⟩ 3600 = false ∧
    RuntimeConstraint.matchesValue ⟨none, some 3600, true, false⟩ 7200 = false := by
  have hDne : D.data ≠ [] := by
    intro hnil
    have hDeq : D = "" := by
      cases D with
      | mk data => simp_all
    rw [hDeq] at hD
    simp [show parse_duration_to_seconds ("") =
      Except.error ("Invalid duration value: ") from rfl] at hD
  have hDfalsy : pyFalsyStr D = false := by
    rw [pyFalsyStr]
    cases hd : D.data with
    | nil => exact absurd hd hDne
    | cons a t => rfl
  have hallS : ∀ c ∈ ("shorter:" ++ D).data, isPyWhitespace c = false := by
    intro c hc
    rw [show ("shorter:" ++ D).data = "shorter:".data ++ D.data from rfl] at hc
    rcases List.mem_append.mp hc with h | h
    · fin_cases h <;> rfl
    · exact hws c h
  have hallL : ∀ c ∈ ("longer:" ++ D).data, isPyWhitespace c = false := by
    intro c hc
    rw [show ("longer:" ++ D).data = "longer:".data ++ D.data from rfl] at hc
    rcases List.mem_append.mp hc with h | h
    · fin_cases h <;> rfl
    · exact hws c h
  have hstripS : pyStrip ("shorter:" ++ D) = "shorter:" ++ D :=
    pyStrip_eq_self _ hallS
  have hstripL : pyStrip ("longer:" ++ D) = "longer:" ++ D :=
    pyStrip_eq_self _ hallL
  have hvalS : pyFalsyStr ("shorter:" ++ D) = false := rfl
  have hvalL : pyFalsyStr ("longer:" ++ D) = false := rfl
  have hswS : pyStartswith (pyLower ("shorter:" ++ D)) ("shorter:") = true := rfl
  have hswL1 : pyStartswith (pyLower ("longer:" ++ D)) ("shorter:") = false := rfl
  have hswL2 : pyStartswith (pyLower ("longer:" ++ D)) ("longer:") = true := rfl
  have hpartS : (pyPartition ("shorter:" ++ D) ':').2.2 = D := rfl
  have hpartL : (pyPartition ("longer:" ++ D) ':').2.2 = D := rfl
  refine ⟨?_, ?_, rfl, rfl, rfl, rfl⟩
  · rw [parse_runtime_value, hstripS, hvalS]
    rw [if_neg (by simp)]
    rw [if_pos hswS, hpartS]
    dsimp only
    rw [hDfalsy]
    rw [if_neg (by simp)]
    rw [hD]
  · rw [parse_runtime_value, hstripL, hvalL]
    rw [if_neg (by simp)]
    simp only [hswL1, hswL2, hpartL, hDfalsy, hD, Bool.false_eq_true,
      if_false, if_true]

/-- Witness for C7 at the concrete duration `"01:00:00"`. -/
theorem C7_shorter_longer_witness :
    parse_runtime_value ("shorter:" ++ "01:00:00") =
      Except.ok ⟨none, some 3600, true, false⟩ ∧
    parse_runtime_value ("longer:" ++ "01:00:00") =
      Except.ok ⟨some 3600, none, false, true⟩ := by
  have h := C7_shorter_longer_dsl ("01:00:00") 3600 (by decide) (by rfl)
  exact ⟨h.1, h.2.1⟩

theorem toLower_digit_beq_false (c d : Char) (hc : isAsciiDigit c = true)
    (hd : 65 ≤ d.val.toNat) : (Char.toLower c == d) = false := by
  have h' := hc
  rw [isAsciiDigit, Bool.and_eq_true] at h'
  obtain ⟨h1, h2⟩ := h'
  rw [decide_eq_true_eq] at h1 h2
  have hv2 : c.val.toNat ≤ 57 := by
    have hle : c.val ≤ ('9' : Char).val := h2
    simp [UInt32.le_def, BitVec.le_def] at hle
    simpa [UInt32.toNat] using hle
  rw [Char.toLower]
  rw [if_neg (by rw [Char.toNat]; omega)]
  rw [beq_eq_false_iff_ne]
  intro heq
  subst heq
  omega

theorem pyStartswith_cons_false (x : Char) (xs : List Char) (d : Char)
    (ds : List Char) (pre : String) (hp : pre.data = d :: ds)
    (hne : (x == d) = false) :
    pyStartswith (String.mk (x :: xs)) pre = false := by
  rw [pyStartswith, hp]
  show (List.take (d :: ds).length (x :: xs) == d :: ds) = false
  rw [List.length_cons, List.take_succ_cons]
  show (x == d && (List.take ds.length xs == ds)) = false
  rw [hne, Bool.false_and]

theorem rangeMatch_head_digit (t : List Char) (p : String × String)
    (h : rangeMatch t = some p) :
    ∃ c rest, t = c :: rest ∧ isAsciiDigit c = true := by
  cases t with
  | nil =>
    rw [show rangeMatch ([] : List Char) = none from rfl] at h
    exact Option.noConfusion h
  | cons c rest =>
    by_cases hc : isAsciiDigit c = true
    · exact ⟨c, rest, rfl, hc⟩
    · exfalso
      have hnil : List.takeWhile isAsciiDigit (c :: rest) = [] := by
        rw [List.takeWhile_cons]
        simp [hc]
      have hzero : nChoices (c :: rest) = [] := by
        rw [nChoices]
        rw [hnil]
        rfl
      have hcore : coreChoices (c :: rest) = [] := by
        rw [coreChoices, hzero]
        rfl
      have hdur : durChoices (c :: rest) = [] := by
        rw [durChoices, hzero, hcore]
        rfl
      rw [rangeMatch, hdur] at h
      exact Option.noConfusion h

/-- Claim C8: a range expression `A-B` (as recognised by the anchored range
pattern, backtracking modelled faithfully) parses to inclusive lower and
upper bounds when `A ≤ B`, and fails with a `CliError` naming the offending
literal when `A > B`; the constraint from `"01:00:00-02:00:00"` accepts
3600 and 7200 and rejects 3599; and a failing expression aborts only the
overall parse while each expression parses independently (the earlier
`"<=02:00:00"` still parses to the same constraint).
(`parse_duration_to_seconds` is absent from `src/` and modelled from the
spec.) -/
theorem C8_range_dsl (s A B : String) (la lb : ℚ)
    (hm : rangeMatch (pyStrip s).data = some (A, B))
    (hA : parse_duration_to_seconds A = Except.ok la)
    (hB : parse_duration_to_seconds B = Except.ok lb) :
    (la ≤ lb → parse_runtime_value s =
      Except.ok ⟨some la, some lb, true, true⟩) ∧
    (lb < la → parse_runtime_value s =
      Except.error ("Invalid --runtime range '" ++ s ++ "': start exceeds end")) ∧
    parse_runtime_value ("01:00:00-02:00:00") =
      Except.ok ⟨some 3600, some 7200, true, true⟩ ∧
    RuntimeConstraint.matchesValue ⟨some 3600, some 7200, true, true⟩ 3600 = true ∧
    RuntimeConstraint.matchesValue ⟨some 3600, some 7200, true, true⟩ 7200 = true ∧
    RuntimeConstraint.matchesValue ⟨some 3600, some 7200, true, true⟩ 3599 = false ∧
    parse_runtime_filters (some ["<=02:00:00", "02:00:00-01:00:00"]) =
      Except.error ("Invalid --runtime range '02:00:00-01:00:00': start exceeds end") ∧
    parse_runtime_value ("<=02:00:00") =
      Except.ok ⟨none, some 7200, true, true⟩ := by
  obtain ⟨c, rest, hdata, hdig⟩ := rangeMatch_head_digit _ _ hm
  have hfalsyStrip : pyFalsyStr (pyStrip s) = false := by
    rw [pyFalsyStr, hdata]
    rfl
  have hsne : s.data ≠ [] := by
    intro hnil
    rw [pyStrip, hnil] at hdata
    exact List.noConfusion hdata
  have hfalsyS : pyFalsyStr s = false := by
    rw [pyFalsyStr]
    cases hsd : s.data with
    | nil => exact absurd hsd hsne
    | cons a t => rfl
  have hlow : pyLower (pyStrip s) =
      String.mk (Char.toLower c :: List.map Char.toLower rest) := by
    rw [pyLower, hdata]
    rfl
  have hsw1 : pyStartswith (pyLower (pyStrip s)) ("shorter:") = false := by
    rw [hlow]
    exact pyStartswith_cons_false _ _ _ _ _ rfl
      (toLower_digit_beq_false c 's' hdig (by decide))
  have hsw2 : pyStartswith (pyLower (pyStrip s)) ("longer:") = false := by
    rw [hlow]
    exact pyStartswith_cons_false _ _ _ _ _ rfl
      (toLower_digit_beq_false c 'l' hdig (by decide))
  refine ⟨?_, ?_, rfl, rfl, rfl, rfl, rfl, rfl⟩
  · intro hle
    rw [parse_runtime_value]
    rw [hfalsyS, hfalsyStrip]
    rw [if_neg (by simp)]
    simp only [hsw1, hsw2, Bool.false_eq_true, if_false, hm, hA, hB]
    rw [if_neg (not_lt.mpr hle)]
  · intro hlt
    rw [parse_runtime_value]
    rw [hfalsyS, hfalsyStrip]
    rw [if_neg (by simp)]
    simp only [hsw1, hsw2, Bool.false_eq_true, if_false, hm, hA, hB]
    rw [if_pos hlt]

/-- Witness for C8 at the concrete range `"01:00:00-02:00:00"` (and its
inverted form, exercised through the closed conjuncts). -/
theorem C8_range_witness :
    parse_runtime_value ("01:00:00-02:00:00") =
      Except.ok ⟨some 3600, some 7200, true, true⟩ := by
  have h := C8_range_dsl ("01:00:00-02:00:00") ("01:00:00") ("02:00:00")
    3600 7200 (by rfl) (by rfl) (by rfl)
  exact h.1 (by norm_num)

theorem insertSorted_replicate (n : Nat) (v : ℚ) :
    insertSorted v (List.replicate n v) = List.replicate (n + 1) v := by
  cases n with
  | zero => rfl
  | succ k =>
    rw [List.replicate_succ, insertSorted, if_pos (le_refl v),
      ← List.replicate_succ, ← List.replicate_succ]

theorem pySorted_replicate (n : Nat) (v : ℚ) :
    pySorted (List.replicate n v) = List.replicate n v := by
  induction n with
  | zero => rfl
  | succ k ih =>
    rw [List.replicate_succ, pySorted, List.foldr_cons, ← pySorted, ih,
      insertSorted_replicate, ← List.replicate_succ]

theorem getD_replicate (n : Nat) (v : ℚ) (i : Nat) (hi : i < n) :
    (List.replicate n v).getD i 0 = v := by
  induction n generalizing i with
  | zero => omega
  | succ k ih =>
    rw [List.replicate_succ]
    cases i with
    | zero => rfl
    | succ j =>
      rw [show (v :: List.replicate k v).getD (j + 1) 0 =
        (List.replicate k v).getD j 0 from rfl]
      exact ih j (by omega)

theorem percentileSorted_replicate (n : Nat) (v : ℚ) (p : ℚ) (hn : 1 ≤ n)
    (hp0 : 0 ≤ p) (hp1 : p ≤ 1) :
    percentileSorted (List.replicate n v) p = v := by
  rw [percentileSorted]
  simp only [List.length_replicate]
  have hcast : (1 : ℚ) ≤ (n : ℚ) := by exact_mod_cast hn
  have h0 : (0 : ℚ) ≤ ((n : ℚ) - 1) * p :=
    mul_nonneg (by linarith) hp0
  have h1 : ((n : ℚ) - 1) * p ≤ (n : ℚ) - 1 :=
    mul_le_of_le_one_right (by linarith) hp1
  have hfl0 : 0 ≤ ⌊((n : ℚ) - 1) * p⌋ := Int.floor_nonneg.mpr h0
  have hfln : ⌊((n : ℚ) - 1) * p⌋ ≤ (n : Int) - 1 := by
    have hf := Int.floor_le_floor h1
    have hfi : ⌊(n : ℚ) - 1⌋ = (n : Int) - 1 := by
      rw [show ((n : ℚ) - 1) = (((n : Int) - 1 : Int) : ℚ) by push_cast; ring,
        Int.floor_intCast]
    omega
  have hcl0 : 0 ≤ ⌈((n : ℚ) - 1) * p⌉ :=
    le_trans hfl0 (Int.floor_le_ceil _)
  have hcln : ⌈((n : ℚ) - 1) * p⌉ ≤ (n : Int) - 1 := by
    rw [Int.ceil_le]
    rw [show (((n : Int) - 1 : Int) : ℚ) = (n : ℚ) - 1 by push_cast; ring]
    exact h1
  have hlowmem : (ratFloor (((n : ℚ) - 1) * p)).toNat < n := by
    rw [ratFloor_eq_floor]
    omega
  have hupmem : (ratCeil (((n : ℚ) - 1) * p)).toNat < n := by
    rw [ratCeil_eq_ceil]
    omega
  split_ifs with heq
  · exact getD_replicate n v _ hlowmem
  · rw [getD_replicate n v _ hlowmem, getD_replicate n v _ hupmem]
    ring

/-- The embedded `freedman_diaconis_bins` succeeds with a bin count of at least 1 on
every non-empty input (every branch is `1` or `max 1 _`). -/
theorem fd_bins_ge_one (values : List ℚ) (hne : values ≠ []) :
    ∃ b, freedman_diaconis_bins values = Except.ok b ∧ 1 ≤ b := by
  simp only [freedman_diaconis_bins]
  split_ifs with h0 h1 h2 h3
  · exact absurd (List.length_eq_zero.mp h0) hne
  · exact ⟨1, rfl, le_refl 1⟩
  · exact ⟨_, rfl, le_max_left 1 _⟩
  · exact ⟨1, rfl, le_refl 1⟩
  · exact ⟨_, rfl, le_max_left 1 _⟩

/-- Claim C9, counterexample: for the all-equal four-element input the IQR
is 0, which is checked *before* the all-equal (zero-range) rule, so the
bin count is `round(sqrt 4) = 2`, not 1 as the claim's "exactly 1 when all
values are equal" asserts. -/
theorem C9_counterexample_all_equal_bins :
    freedman_diaconis_bins [5, 5, 5, 5] = Except.ok 2 ∧ (2 : Int) ≠ 1 := by
  have hsort : pySorted [(5 : ℚ), 5, 5, 5] = List.replicate 4 5 := rfl
  have hq1 : percentileSorted (pySorted [(5 : ℚ), 5, 5, 5]) (1 / 4) = 5 := by
    rw [hsort]
    exact percentileSorted_replicate 4 5 (1 / 4) (by norm_num) (by norm_num)
      (by norm_num)
  have hq3 : percentileSorted (pySorted [(5 : ℚ), 5, 5, 5]) (3 / 4) = 5 := by
    rw [hsort]
    exact percentileSorted_replicate 4 5 (3 / 4) (by norm_num) (by norm_num)
      (by norm_num)
  refine ⟨?_, by decide⟩
  simp only [freedman_diaconis_bins]
  rw [if_neg (by decide), if_neg (by decide)]
  rw [hq1, hq3]
  rw [if_pos (by norm_num)]
  rfl

/-- Claim C9 (amended): the Freedman-Diaconis bin count is at least 1 for
every non-empty input; it is exactly 1 for a single value; when the IQR of
the sorted data is 0 — which includes the all-equal case for `n ≥ 2`, where
the result is `max 1 (round (sqrt n))`, *not* 1 — it falls back to
`round(sqrt n)`; and the rendering step clamps the final bin count into
`[1, 80]` regardless of the caller-supplied or computed value. -/
theorem C9_fd_bins_bounds :
    (∀ values : List ℚ, values ≠ [] →
      ∃ b, freedman_diaconis_bins values = Except.ok b ∧ 1 ≤ b) ∧
    (∀ v : ℚ, freedman_diaconis_bins [v] = Except.ok 1) ∧
    (∀ values : List ℚ, 2 ≤ values.length →
      percentileSorted (pySorted values) (3 / 4) -
        percentileSorted (pySorted values) (1 / 4) = 0 →
      freedman_diaconis_bins values =
        Except.ok (max 1 (pyRoundSqrt values.length))) ∧
    (∀ (records : List JobRecord) (use_seconds : Bool) (bins : Option Int),
      records ≠ [] →
      ∃ d, create_histogram_data records use_seconds bins = Except.ok d ∧
        1 ≤ d.bins ∧ d.bins ≤ 80) := by
  refine ⟨fd_bins_ge_one, ?_, ?_, ?_⟩
  · intro v
    simp only [freedman_diaconis_bins]
    rw [if_neg (by simp), if_pos (by simp)]
  · intro values h2 hiqr
    simp only [freedman_diaconis_bins]
    rw [if_neg (by omega), if_neg (by omega)]
    rw [if_pos hiqr]
  · intro records use_seconds bins hne
    simp only [create_histogram_data]
    rw [if_neg (by simp [hne])]
    cases bins with
    | some b =>
      refine ⟨_, rfl, le_max_left 1 _, ?_⟩
      exact max_le (by norm_num) (min_le_left 80 b)
    | none =>
      obtain ⟨b, hb, hb1⟩ := fd_bins_ge_one
        (prepare_histogram_values records use_seconds)
        (by
          rw [prepare_histogram_values]
          split_ifs <;> simp [hne])
      dsimp only
      rw [hb]
      refine ⟨_, rfl, le_max_left 1 _, ?_⟩
      exact max_le (by norm_num) (min_le_left 80 b)

/-- Witness for C9: each conjunct instantiated at a concrete input. -/
theorem C9_fd_bins_witness :
    (∃ b, freedman_diaconis_bins [(5 : ℚ), 5] = Except.ok b ∧ 1 ≤ b) ∧
    freedman_diaconis_bins [(7 : ℚ)] = Except.ok 1 ∧
    freedman_diaconis_bins [(5 : ℚ), 5] =
      Except.ok (max 1 (pyRoundSqrt 2)) ∧
    (∃ d, create_histogram_data [sampleRecord] true none = Except.ok d ∧
      1 ≤ d.bins ∧ d.bins ≤ 80) := by
  have hiqr : percentileSorted (pySorted [(5 : ℚ), 5]) (3 / 4) -
      percentileSorted (pySorted [(5 : ℚ), 5]) (1 / 4) = 0 := by
    have hsort : pySorted [(5 : ℚ), 5] = List.replicate 2 5 := rfl
    rw [hsort,
      percentileSorted_replicate 2 5 (3 / 4) (by norm_num) (by norm_num)
        (by norm_num),
      percentileSorted_replicate 2 5 (1 / 4) (by norm_num) (by norm_num)
        (by norm_num)]
    ring
  refine ⟨C9_fd_bins_bounds.1 [(5 : ℚ), 5] (by simp),
    C9_fd_bins_bounds.2.1 7, ?_,
    C9_fd_bins_bounds.2.2.2 [sampleRecord] true none (by simp)⟩
  exact C9_fd_bins_bounds.2.2.1 [(5 : ℚ), 5] (by decide) hiqr

theorem count_filter_split (l : List ℚ) (cutoff v : ℚ) :
    (l.filter (fun x => decide (x ≤ cutoff))).count v +
      (l.filter (fun x => decide (cutoff < x))).count v = l.count v := by
  induction l with
  | nil => rfl
  | cons a t ih =>
    by_cases ha : a ≤ cutoff
    · rw [List.filter_cons_of_pos (by simpa using ha),
        List.filter_cons_of_neg (by simpa using not_lt.mpr ha),
        List.count_cons, List.count_cons]
      omega
    · rw [List.filter_cons_of_neg (by simpa using ha),
        List.filter_cons_of_pos (by simpa using not_le.mp ha),
        List.count_cons, List.count_cons]
      omega

theorem split_props (adjusted : List ℚ) (cutoff : ℚ) :
    (∀ v : ℚ,
      (adjusted.filter (fun x => decide (x ≤ cutoff))).count v +
        (adjusted.filter (fun x => decide (cutoff < x))).count v =
        adjusted.count v) ∧
    (∀ v ∈ adjusted.filter (fun x => decide (x ≤ cutoff)), v ≤ cutoff) ∧
    (∀ v ∈ adjusted.filter (fun x => decide (cutoff < x)), cutoff < v) ∧
    (adjusted.filter (fun x => decide (cutoff < x)) = [] ↔
      ∀ v ∈ adjusted, v ≤ cutoff) := by
  refine ⟨fun v => count_filter_split adjusted cutoff v, ?_, ?_, ?_⟩
  · intro v hv
    simpa using List.of_mem_filter hv
  · intro v hv
    simpa using List.of_mem_filter hv
  · rw [List.filter_eq_nil_iff]
    constructor
    · intro h v hv
      have := h v hv
      simpa [not_lt] using this
    · intro h v hv
      simp [not_lt]
      exact h v hv

/-- Claim C10: the two-panel split assigns each substituted value (with
multiplicity) to exactly one of the typical (`≤ cutoff`) and tail
(`> cutoff`) subsets, where the cutoff is the 95th percentile of the
substituted values, and the tail is empty iff no value exceeds the
cutoff. -/
theorem C10_two_panel_split (records : List JobRecord) (use_seconds : Bool)
    (bins : Option Int) (hne : records ≠ []) :
    ∃ d, create_histogram_data records use_seconds bins = Except.ok d ∧
      (∀ v : ℚ, d.typical_values.count v + d.tail_values.count v =
        d.adjusted_values.count v) ∧
      (∀ v ∈ d.typical_values, v ≤ d.typical_cutoff) ∧
      (∀ v ∈ d.tail_values, d.typical_cutoff < v) ∧
      (d.tail_values = [] ↔ ∀ v ∈ d.adjusted_values, v ≤ d.typical_cutoff) := by
  simp only [create_histogram_data]
  rw [if_neg (by simp [hne])]
  cases bins with
  | some b =>
    refine ⟨_, rfl, ?_, ?_, ?_, ?_⟩
    · exact (split_props _ _).1
    · exact (split_props _ _).2.1
    · exact (split_props _ _).2.2.1
    · exact (split_props _ _).2.2.2
  | none =>
    obtain ⟨b, hb, _⟩ := fd_bins_ge_one
      (prepare_histogram_values records use_seconds)
      (by
        rw [prepare_histogram_values]
        split_ifs <;> simp [hne])
    dsimp only
    rw [hb]
    refine ⟨_, rfl, ?_, ?_, ?_, ?_⟩
    · exact (split_props _ _).1
    · exact (split_props _ _).2.1
    · exact (split_props _ _).2.2.1
    · exact (split_props _ _).2.2.2

/-- Witness for C10 at a one-record input. -/
theorem C10_two_panel_witness :
    ∃ d, create_histogram_data [sampleRecord] true none = Except.ok d ∧
      (∀ v : ℚ, d.typical_values.count v + d.tail_values.count v =
        d.adjusted_values.count v) ∧
      (∀ v ∈ d.typical_values, v ≤ d.typical_cutoff) ∧
      (∀ v ∈ d.tail_values, d.typical_cutoff < v) ∧
      (d.tail_values = [] ↔ ∀ v ∈ d.adjusted_values, v ≤ d.typical_cutoff) :=
  C10_two_panel_split [sampleRecord] true none (by simp)

end SlurmWait
